import Mathlib

/-!
Shallow embedding of the browser-side RAG client of this repository:
the API client (src/backend/static/js/api.js), the UI controller state
handlers (src/backend/static/js/main.js) and the speech-recognition
wrapper (src/unnamed/part_000, the Voice object).

Network effects are made explicit: every API operation returns the list
of HTTP requests it issues together with its outcome, given the HTTP
response the single request would receive.  JavaScript truthiness of the
strings and JSON values involved is modelled explicitly.
-/

/-- A JSON value, as far as the client inspects one: strings, numbers and
objects (the only shapes the code ever builds or reads). -/
inductive Json where
  | str : String → Json
  | num : Int → Json
  | obj : List (String × Json) → Json

/-- Field lookup on a JSON value: `j.field` in JavaScript, `undefined`
(`none`) on non-objects or missing keys. -/
def Json.lookup : Json → String → Option Json
  | .obj fields, k => List.lookup k fields
  | _, _ => none

/-- JavaScript truthiness of a JSON value: empty string and zero are
falsy, every object is truthy. -/
def jsTruthy : Json → Bool
  | .str s => s != ""
  | .num n => n != 0
  | .obj _ => true

/-- The message string `new Error(v)` produces from a JSON value `v`. -/
def jsToMessage : Json → String
  | .str s => s
  | .num n => toString n
  | .obj _ => "[object Object]"

/-- The whitespace class of the JavaScript `String.prototype.trim`
primitive (the characters relevant to this client). -/
def jsWhitespace (c : Char) : Bool :=
  c == ' ' || c == '\t' || c == '\n' || c == '\r' || c == '\x0b' || c == '\x0c'

/-- The JavaScript `.trim()` primitive: drops leading and trailing
whitespace. -/
def jsTrim (s : String) : String :=
  String.mk (((s.data.dropWhile jsWhitespace).reverse.dropWhile jsWhitespace).reverse)

/-- JavaScript truthiness of an optional string (`null`/`undefined` and
the empty string are falsy). -/
def jsTruthyOpt : Option String → Bool
  | some s => s != ""
  | none => false

/-- An HTTP response as the client observes it: the numeric status and
the result of parsing the body as JSON (`Except.error` is the message of
the exception `response.json()` would throw). -/
structure HttpResponse where
  status : Nat
  body : Except String Json

/-- `response.ok`: status in the 2xx range. -/
def respOk (r : HttpResponse) : Bool :=
  decide (200 ≤ r.status ∧ r.status < 300)

/-- An image file handle: the fields of a browser `File` the code reads. -/
structure ImageFile where
  name : String
  size : Nat
  mimeType : String

/-- A value appended to a `FormData` body. -/
inductive FormValue where
  | file : ImageFile → FormValue
  | text : String → FormValue

/-- A request body: none (GET), a JSON document, or multipart form data. -/
inductive HttpBody where
  | empty : HttpBody
  | json : Json → HttpBody
  | form : List (String × FormValue) → HttpBody

/-- An HTTP request as assembled by the client. -/
structure Request where
  method : String
  url : String
  body : HttpBody

/-- `errorData.error || generic` — the message thrown for a non-2xx
response once its body parsed as JSON `data`: the `error` field when it
is truthy, the generic status message otherwise. -/
def errorFromData (data : Json) (generic : String) : String :=
  match data.lookup "error" with
  | some v => if jsTruthy v then jsToMessage v else generic
  | none => generic

/-- The failure message of the non-2xx branch that first awaits
`response.json()`: a body that fails to parse rethrows the parse
exception, otherwise `errorFromData` applies. -/
def failBody (resp : HttpResponse) (generic : String) : String :=
  match resp.body with
  | .error e => e
  | .ok data => errorFromData data generic

/-- `API.healthCheck`: a GET to `<base>/health`; a non-2xx response
throws the generic status message without reading the body. -/
def healthCheck (base : String) (resp : HttpResponse) :
    List Request × Except String Json :=
  let req : Request := { method := "GET", url := base ++ "/health", body := .empty }
  if respOk resp then ([req], resp.body)
  else ([req], .error ("Health check failed: " ++ toString resp.status))

/-- `API.queryText(query, topK)`: validates the query is non-blank, then
POSTs the JSON body with the trimmed query to `<base>/api/query`. -/
def queryText (base query : String) (topK : Int) (resp : HttpResponse) :
    List Request × Except String Json :=
  if jsTrim query = "" then ([], .error "Query cannot be empty")
  else
    let req : Request :=
      { method := "POST", url := base ++ "/api/query",
        body := .json (.obj [("query", .str (jsTrim query)), ("top_k", .num topK)]) }
    if respOk resp then ([req], resp.body)
    else ([req], .error (failBody resp ("Request failed: " ++ toString resp.status)))

/-- The default value of the `topK` parameter of `API.queryText`. -/
def defaultTopK : Int := 5

/-- `API.queryText(query)` with the `topK` argument omitted. -/
def queryTextDefault (base query : String) (resp : HttpResponse) :
    List Request × Except String Json :=
  queryText base query defaultTopK resp

/-- `API.extractOCR(imageFile)`: requires an image, then POSTs it as
multipart form data to `<base>/api/ocr`. -/
def extractOCR (base : String) (imageFile : Option ImageFile) (resp : HttpResponse) :
    List Request × Except String Json :=
  match imageFile with
  | none => ([], .error "Image file is required")
  | some f =>
    let req : Request :=
      { method := "POST", url := base ++ "/api/ocr", body := .form [("image", .file f)] }
    if respOk resp then ([req], resp.body)
    else ([req], .error (failBody resp ("OCR failed: " ++ toString resp.status)))

/-- `API.imageQuery(imageFile, query, topK)`: requires an image, then
POSTs image, trimmed query and stringified topK to `<base>/api/image-query`. -/
def imageQuery (base : String) (imageFile : Option ImageFile) (query : String)
    (topK : Int) (resp : HttpResponse) : List Request × Except String Json :=
  match imageFile with
  | none => ([], .error "Image file is required")
  | some f =>
    let req : Request :=
      { method := "POST", url := base ++ "/api/image-query",
        body := .form [("image", .file f), ("query", .text (jsTrim query)),
                       ("top_k", .text (toString topK))] }
    if respOk resp then ([req], resp.body)
    else ([req], .error (failBody resp ("Image query failed: " ++ toString resp.status)))

/-- `API.textToSpeech(text)`: validates the text is non-blank, then POSTs
the trimmed text to `<base>/api/tts`; success yields an audio blob,
abstracted as `Unit`. -/
def textToSpeech (base text : String) (resp : HttpResponse) :
    List Request × Except String Unit :=
  if jsTrim text = "" then ([], .error "Text cannot be empty")
  else
    let req : Request :=
      { method := "POST", url := base ++ "/api/tts",
        body := .json (.obj [("text", .str (jsTrim text))]) }
    if respOk resp then ([req], .ok ())
    else ([req], .error (failBody resp ("TTS failed: " ++ toString resp.status)))

/-- `API.checkConnection`: awaits `healthCheck` and compares the `status`
field of the payload against the string `healthy`; every failure is
caught and becomes `false`. -/
def checkConnection (base : String) (resp : HttpResponse) : Bool :=
  match (healthCheck base resp).2 with
  | .ok health =>
    match Json.lookup health "status" with
    | some (.str s) => s == "healthy"
    | _ => false
  | .error _ => false

/-- `url.replace(/\/$/, '')`: removes one trailing slash when present. -/
def stripTrailingSlash (s : String) : String :=
  if s.data.getLast? = some '/' then String.mk s.data.dropLast else s

/-- The mutable state of the API client module: the module-level
`API_BASE_URL` variable, the `API_BASE_URL` local-storage entry, and
whether `window.localStorage` exists. -/
structure ApiClientState where
  apiBaseUrl : String
  storedBaseUrl : Option String
  hasLocalStorage : Bool

/-- `window.setApiBaseUrl(url)`: throws on an empty url (the state is
untouched, since the throw happens before any assignment); otherwise
strips a trailing slash, stores the result in the module variable,
persists it to local storage when available, and returns it. -/
def setApiBaseUrl (url : String) (s : ApiClientState) :
    ApiClientState × Except String String :=
  if url = "" then (s, .error "API base URL must be a non-empty string")
  else
    let v := stripTrailingSlash url
    ({ apiBaseUrl := v,
       storedBaseUrl := if s.hasLocalStorage then some v else s.storedBaseUrl,
       hasLocalStorage := s.hasLocalStorage }, .ok v)

/-- `API.getBaseUrl()`: reads the module variable. -/
def getBaseUrl (s : ApiClientState) : String := s.apiBaseUrl

/-- The parts of `window.location` the client reads. -/
structure PageLocation where
  origin : String
  hostname : String
  port : String
  protocol : String

/-- The inputs `resolveApiBaseUrl` consults: the global override
`window.__API_BASE_URL`, the persisted `API_BASE_URL` local-storage
entry, the `api-base-url` meta tag content, and the page location.
`none` models an absent value (`undefined`/`null`). -/
structure BrowserEnv where
  windowOverride : Option String
  storage : Option String
  meta : Option String
  loc : PageLocation

/-- `resolveApiBaseUrl` as written in the code: a fallback initialised to
the origin, rewritten to port 5000 when all three overrides are falsy and
the host is local with a non-empty port other than 5000; then the
truthiness chain over override, storage, meta and fallback; the selected
value loses one trailing slash. -/
def resolveApiBaseUrl (env : BrowserEnv) : String :=
  let fromWindow := env.windowOverride
  let fromStorage := env.storage
  let fromMeta := env.meta
  let fallback :=
    if !jsTruthyOpt fromWindow && !jsTruthyOpt fromStorage && !jsTruthyOpt fromMeta then
      let host := env.loc.hostname
      let isLocal := host == "localhost" || host == "127.0.0.1"
      if isLocal && env.loc.port != "" && env.loc.port != "5000" then
        env.loc.protocol ++ "//" ++ host ++ ":5000"
      else env.loc.origin
    else env.loc.origin
  let selected :=
    if jsTruthyOpt fromWindow then fromWindow.getD ""
    else if jsTruthyOpt fromStorage then fromStorage.getD ""
    else if jsTruthyOpt fromMeta then fromMeta.getD ""
    else fallback
  stripTrailingSlash selected

/-- The base-URL resolution rule as the spec words it: a strict priority
cascade — the global override if set, else the persisted value, else the
meta tag, else the same-origin fallback, where the fallback becomes
`<protocol>//<host>:5000` exactly when the hostname is localhost or
127.0.0.1 and the port is non-empty and different from 5000; the selected
value has a trailing slash stripped.  (A value that is absent or empty
counts as not set.) -/
def specResolveApiBaseUrl (env : BrowserEnv) : String :=
  stripTrailingSlash
    (if jsTruthyOpt env.windowOverride then env.windowOverride.getD ""
     else if jsTruthyOpt env.storage then env.storage.getD ""
     else if jsTruthyOpt env.meta then env.meta.getD ""
     else if (env.loc.hostname == "localhost" || env.loc.hostname == "127.0.0.1")
          && env.loc.port != "" && env.loc.port != "5000" then
       env.loc.protocol ++ "//" ++ env.loc.hostname ++ ":5000"
     else env.loc.origin)

/-- The 16 MiB cap of `handleImageSelect`. -/
def maxImageSize : Nat := 16 * 1024 * 1024

/-- The module-level `selectedImage` variable of the UI controller. -/
structure MainState where
  selectedImage : Option ImageFile

/-- `handleImageSelect(file)`: rejects a file above the 16 MiB cap with
an error message and no state change, otherwise stores it as the
selected image.  The second component is the error shown, if any. -/
def handleImageSelect (file : ImageFile) (s : MainState) :
    MainState × Option String :=
  if file.size > maxImageSize then
    (s, some "Image size must be less than 16MB")
  else
    ({ selectedImage := some file }, none)

/-- The audio object-URL state of the UI controller: the module-level
`currentAudioUrl` variable, the set of object URLs currently live
(created and not yet revoked), and a counter supplying fresh URLs.
URLs are abstracted as natural numbers. -/
structure AudioState where
  current : Option Nat
  live : Finset Nat
  next : Nat

/-- `URL.revokeObjectURL(u)`: the URL stops being live. -/
def revokeObjectURL (s : AudioState) (u : Nat) : AudioState :=
  { s with live := s.live.erase u }

/-- `URL.createObjectURL(blob)`: a fresh URL becomes live. -/
def createObjectURL (s : AudioState) : Nat × AudioState :=
  (s.next, { s with live := insert s.next s.live, next := s.next + 1 })

/-- The success path of `handleTextToSpeech` after `API.textToSpeech`
resolves: revoke the previously stored URL if there is one, then create
the new object URL and store it in `currentAudioUrl`. -/
def ttsSuccess (s : AudioState) : AudioState :=
  let s1 := match s.current with
    | some u => revokeObjectURL s u
    | none => s
  let created := createObjectURL s1
  { created.2 with current := some created.1 }

/-- `clearTextResults`: revokes the current audio URL when set and nulls
the variable. -/
def clearTextResults (s : AudioState) : AudioState :=
  match s.current with
  | some u => { revokeObjectURL s u with current := none }
  | none => s

/-- The `beforeunload` handler: revokes the current audio URL when set
(the variable itself is not cleared). -/
def beforeUnload (s : AudioState) : AudioState :=
  match s.current with
  | some u => revokeObjectURL s u
  | none => s

/-- The state of the audio-URL globals at page load: no current URL, no
live object URL. -/
def initialAudioState : AudioState :=
  { current := none, live := ∅, next := 0 }

/-- The audio-URL invariant: every live URL is below the freshness
counter, and the live set is exactly the stored current URL. -/
def AudioInv (s : AudioState) : Prop :=
  (∀ u ∈ s.live, u < s.next) ∧
  s.live = (match s.current with
    | some u => {u}
    | none => ∅)

/-- The active flags of the two tab buttons (in document order: text
first, image second) and the two tab content panels. -/
structure TabState where
  textBtnActive : Bool
  imageBtnActive : Bool
  textContentActive : Bool
  imageContentActive : Bool

/-- `window.switchTab(tab)`: removes the active class from every tab
button and content panel, then adds it to the first button and the text
panel when the argument is the string `text`, and to the second button
and the image panel otherwise. -/
def switchTab (tab : String) (_s : TabState) : TabState :=
  let cleared : TabState :=
    { textBtnActive := false, imageBtnActive := false,
      textContentActive := false, imageContentActive := false }
  if tab = "text" then
    { cleared with textBtnActive := true, textContentActive := true }
  else
    { cleared with imageBtnActive := true, imageContentActive := true }

/-- The number of tab buttons carrying the active class. -/
def activeBtnCount (s : TabState) : Nat :=
  (if s.textBtnActive then 1 else 0) + (if s.imageBtnActive then 1 else 0)

/-- The number of tab content panels carrying the active class. -/
def activeContentCount (s : TabState) : Nat :=
  (if s.textContentActive then 1 else 0) + (if s.imageContentActive then 1 else 0)

/-- The state of the Voice wrapper: whether the browser supports speech
recognition, whether `this.recognition` has been constructed, the
`isListening` flag, and how many times `recognition.start()` has been
invoked. -/
structure VoiceState where
  supported : Bool
  hasRecognition : Bool
  isListening : Bool
  startCount : Nat

/-- The immediate outcome of `Voice.recognize()`: the promise either has
a recognition session started for it, or is rejected at once. -/
inductive RecognizeOutcome where
  | started : RecognizeOutcome
  | rejected : String → RecognizeOutcome

/-- The synchronous body of `Voice.recognize()`: reject when recognition
is unsupported; lazily construct `this.recognition`; reject when already
listening; otherwise set the listening flag and invoke
`recognition.start()`, which may itself throw (`startOk = false`), in
which case the flag is reset and the promise rejected. -/
def recognize (s : VoiceState) (startOk : Bool) :
    VoiceState × RecognizeOutcome :=
  if !s.supported then
    (s, .rejected "Speech recognition not supported")
  else
    let s1 := if s.hasRecognition then s else { s with hasRecognition := true }
    if s1.isListening then
      (s1, .rejected "Already listening")
    else
      let s2 := { s1 with isListening := true, startCount := s1.startCount + 1 }
      if startOk then (s2, .started)
      else ({ s2 with isListening := false }, .rejected "start threw")


/-- Claim C1: for every query string that is non-empty after trimming and
every topK value, `queryText` issues exactly one POST request to
`<base>/api/query` whose JSON body is exactly the trimmed query paired
with the topK value; with topK omitted it defaults to 5 (the second
conjunct, with `defaultTopK = 5` by definition). -/
theorem queryText_request_shape (base query : String) (topK : Int)
    (resp : HttpResponse) (h : jsTrim query ≠ "") :
    (queryText base query topK resp).1 =
      [{ method := "POST", url := base ++ "/api/query",
         body := .json (.obj [("query", .str (jsTrim query)), ("top_k", .num topK)]) }] ∧
    queryTextDefault base query resp = queryText base query 5 resp := by
  refine ⟨?_, rfl⟩
  by_cases hr : respOk resp = true <;> simp [queryText, h, hr]

theorem queryText_request_shape_witness :
    (queryText "http://x" " q " 7 { status := 200, body := .ok (.obj []) }).1 =
      [{ method := "POST", url := "http://x" ++ "/api/query",
         body := .json (.obj [("query", .str (jsTrim " q ")), ("top_k", .num 7)]) }] ∧
    queryTextDefault "http://x" " q " { status := 200, body := .ok (.obj []) } =
      queryText "http://x" " q " 5 { status := 200, body := .ok (.obj []) } :=
  queryText_request_shape "http://x" " q " 7 _ (by decide)

/-- Claim C2: `setApiBaseUrl` throws on an empty url leaving the stored
base URL unchanged; on every non-empty url it strips a trailing slash,
returns the result, makes subsequent `getBaseUrl` return it, and
persists it when local storage exists; in particular
`http://x/` normalises to `http://x`.  (A non-string argument is outside
this typed embedding.) -/
theorem setApiBaseUrl_spec (url : String) (s : ApiClientState) :
    (url = "" → setApiBaseUrl url s = (s, .error "API base URL must be a non-empty string")) ∧
    (url ≠ "" →
      (setApiBaseUrl url s).2 = .ok (stripTrailingSlash url) ∧
      getBaseUrl (setApiBaseUrl url s).1 = stripTrailingSlash url ∧
      (s.hasLocalStorage = true →
        (setApiBaseUrl url s).1.storedBaseUrl = some (stripTrailingSlash url))) ∧
    stripTrailingSlash "http://x/" = "http://x" := by
  refine ⟨fun h => by simp [setApiBaseUrl, h], fun h => ?_, by decide⟩
  refine ⟨by simp [setApiBaseUrl, h], by simp [setApiBaseUrl, getBaseUrl, h], fun hls => ?_⟩
  simp [setApiBaseUrl, h, hls]

theorem setApiBaseUrl_spec_witness :
    (setApiBaseUrl "" { apiBaseUrl := "a", storedBaseUrl := none, hasLocalStorage := true } =
      ({ apiBaseUrl := "a", storedBaseUrl := none, hasLocalStorage := true },
        .error "API base URL must be a non-empty string")) ∧
    ((setApiBaseUrl "http://x/" { apiBaseUrl := "a", storedBaseUrl := none, hasLocalStorage := true }).2 =
      .ok (stripTrailingSlash "http://x/")) := by
  have h1 := (setApiBaseUrl_spec "" { apiBaseUrl := "a", storedBaseUrl := none, hasLocalStorage := true }).1 rfl
  have h2 := ((setApiBaseUrl_spec "http://x/" { apiBaseUrl := "a", storedBaseUrl := none, hasLocalStorage := true }).2.1 (by decide)).1
  exact ⟨h1, h2⟩

/-- Claim C4: every network operation validates its required inputs
before issuing any request — a blank query or blank text, or a missing
image file, fails with the validation error and an empty list of issued
requests. -/
theorem validation_before_request (base q t : String) (topK : Int) (resp : HttpResponse) :
    (jsTrim q = "" → queryText base q topK resp = ([], .error "Query cannot be empty")) ∧
    (jsTrim t = "" → textToSpeech base t resp = ([], .error "Text cannot be empty")) ∧
    extractOCR base none resp = ([], .error "Image file is required") ∧
    imageQuery base none q topK resp = ([], .error "Image file is required") := by
  exact ⟨fun h => by simp [queryText, h], fun h => by simp [textToSpeech, h], rfl, rfl⟩

theorem validation_before_request_witness :
    (queryText "b" "  " 5 { status := 200, body := .ok (.obj []) } =
      ([], .error "Query cannot be empty")) ∧
    (textToSpeech "b" "  " { status := 200, body := .ok (.obj []) } =
      ([], .error "Text cannot be empty")) := by
  have h := validation_before_request "b" "  " "  " 5 { status := 200, body := .ok (.obj []) }
  exact ⟨h.1 (by decide), h.2.1 (by decide)⟩

/-- Claim C7: `handleImageSelect` rejects every file larger than 16 MiB
with an error message and leaves `selectedImage` unchanged, and stores
every file of at most 16 MiB as the selected image. -/
theorem imageSelect_size_cap (f : ImageFile) (s : MainState) :
    (f.size > maxImageSize →
      handleImageSelect f s = (s, some "Image size must be less than 16MB")) ∧
    (f.size ≤ maxImageSize →
      handleImageSelect f s = ({ selectedImage := some f }, none)) := by
  constructor
  · intro h; simp [handleImageSelect, h]
  · intro h; simp [handleImageSelect, Nat.not_lt.mpr h]

theorem imageSelect_size_cap_witness :
    (handleImageSelect { name := "big.png", size := 16 * 1024 * 1024 + 1, mimeType := "image/png" }
        { selectedImage := none } =
      ({ selectedImage := none }, some "Image size must be less than 16MB")) ∧
    (handleImageSelect { name := "ok.png", size := 16 * 1024 * 1024, mimeType := "image/png" }
        { selectedImage := none } =
      ({ selectedImage := some { name := "ok.png", size := 16 * 1024 * 1024, mimeType := "image/png" } }, none)) := by
  have h1 := (imageSelect_size_cap { name := "big.png", size := 16 * 1024 * 1024 + 1, mimeType := "image/png" } { selectedImage := none }).1 (by decide)
  have h2 := (imageSelect_size_cap { name := "ok.png", size := 16 * 1024 * 1024, mimeType := "image/png" } { selectedImage := none }).2 (by decide)
  exact ⟨h1, h2⟩


/-- Claim C8: for both tab identifiers, after `switchTab` exactly one tab
button and exactly one content panel carry the active class — the pair
of the selected tab — whatever was active before. -/
theorem switchTab_exactly_one (tab : String) (s : TabState)
    (h : tab = "text" ∨ tab = "image") :
    activeBtnCount (switchTab tab s) = 1 ∧
    activeContentCount (switchTab tab s) = 1 ∧
    (tab = "text" → (switchTab tab s).textBtnActive = true ∧
      (switchTab tab s).textContentActive = true) ∧
    (tab = "image" → (switchTab tab s).imageBtnActive = true ∧
      (switchTab tab s).imageContentActive = true) := by
  rcases h with h | h <;> subst h <;>
    simp [switchTab, activeBtnCount, activeContentCount]

theorem switchTab_exactly_one_witness :
    activeBtnCount (switchTab "image"
      { textBtnActive := true, imageBtnActive := true,
        textContentActive := true, imageContentActive := true }) = 1 :=
  (switchTab_exactly_one "image"
    { textBtnActive := true, imageBtnActive := true,
      textContentActive := true, imageContentActive := true } (Or.inr rfl)).1

/-- Claim C10: `checkConnection` is a total boolean function (it never
throws) returning true exactly when `healthCheck` succeeds with a
payload whose status field is the string `healthy`; every other payload
and every failure yields false. -/
theorem checkConnection_iff (base : String) (resp : HttpResponse) :
    checkConnection base resp = true ↔
      ∃ health, (healthCheck base resp).2 = .ok health ∧
        Json.lookup health "status" = some (.str "healthy") := by
  unfold checkConnection
  cases hres : (healthCheck base resp).2 with
  | error e => simp
  | ok health =>
    cases hl : Json.lookup health "status" with
    | none => simp [hl]
    | some v =>
      cases v with
      | str s => simp [hl, beq_iff_eq]
      | num n => simp [hl]
      | obj fields => simp [hl]

/-- Claim C6: a `Voice.recognize()` call made while the listening flag is
true (a state in which recognition is supported, the only way the flag
is ever set) is rejected with the already-listening error, does not
invoke `recognition.start()`, and leaves the flag true; and `recognize`
fails immediately, with no state change, when recognition is
unsupported. -/
theorem recognize_guard (s : VoiceState) (startOk : Bool) :
    (s.isListening = true → s.supported = true →
      (recognize s startOk).2 = .rejected "Already listening" ∧
      (recognize s startOk).1.isListening = true ∧
      (recognize s startOk).1.startCount = s.startCount) ∧
    (s.supported = false →
      recognize s startOk = (s, .rejected "Speech recognition not supported")) := by
  constructor
  · intro hl hs
    cases hr : s.hasRecognition <;> simp [recognize, hs, hl, hr]
  · intro hs
    simp [recognize, hs]

theorem recognize_guard_witness :
    (recognize
        { supported := true, hasRecognition := true, isListening := true,
          startCount := 3 } true).2 = .rejected "Already listening" ∧
    (recognize
        { supported := true, hasRecognition := true, isListening := true,
          startCount := 3 } true).1.startCount = 3 := by
  have h := (recognize_guard
    { supported := true, hasRecognition := true,
      isListening := true, startCount := 3 } true).1 rfl rfl
  exact ⟨h.1, h.2.2⟩

/-- Claim C9: the base URL resolution of the code coincides, on every
browser environment, with the strict priority cascade the spec
describes — global override, else persisted value, else meta tag, else
the same-origin fallback with the local-development port-5000 heuristic,
with a trailing slash stripped from the selected value. -/
theorem resolveApiBaseUrl_refines_spec (env : BrowserEnv) :
    resolveApiBaseUrl env = specResolveApiBaseUrl env := by
  unfold resolveApiBaseUrl specResolveApiBaseUrl
  by_cases hw : jsTruthyOpt env.windowOverride = true <;>
  by_cases hs : jsTruthyOpt env.storage = true <;>
  by_cases hm : jsTruthyOpt env.meta = true <;>
  simp [hw, hs, hm]


/-- One successful TTS run from an invariant state: the live set becomes
the singleton of the fresh URL, which is stored, and the counter
advances. -/
theorem ttsSuccess_char (s : AudioState) (h : AudioInv s) :
    (ttsSuccess s).live = {s.next} ∧ (ttsSuccess s).current = some s.next ∧
    (ttsSuccess s).next = s.next + 1 := by
  obtain ⟨hb, hl⟩ := h
  cases hc : s.current with
  | none =>
    rw [hc] at hl
    simp [ttsSuccess, createObjectURL, hc, hl]
  | some u =>
    rw [hc] at hl
    simp [ttsSuccess, revokeObjectURL, createObjectURL, hc, hl,
      Finset.erase_singleton]

/-- The TTS success path preserves the audio invariant. -/
theorem ttsSuccess_inv (s : AudioState) (h : AudioInv s) :
    AudioInv (ttsSuccess s) := by
  obtain ⟨hchar1, hchar2, hchar3⟩ := ttsSuccess_char s h
  constructor
  · intro u hu
    rw [hchar1] at hu
    rw [hchar3]
    simp at hu
    omega
  · rw [hchar1, hchar2]

/-- Claim C5: the audio invariant (the live object URLs are exactly the
stored current URL) holds initially and is preserved by the TTS success
path and by `clearTextResults`; after two successful TTS calls exactly
one audio URL is live; a successful TTS call revokes the previously
stored URL before the new one is created and stored; `clearTextResults`
and the unload handler leave no URL live. -/
theorem audio_url_invariant (s : AudioState) (h : AudioInv s) :
    AudioInv (ttsSuccess s) ∧
    AudioInv (clearTextResults s) ∧
    (ttsSuccess (ttsSuccess s)).live.card = 1 ∧
    (∀ u, s.current = some u →
      (ttsSuccess s).live = {s.next} ∧ u ∉ (ttsSuccess s).live) ∧
    (clearTextResults s).live = ∅ ∧
    (beforeUnload s).live = ∅ ∧
    AudioInv initialAudioState := by
  obtain ⟨hb, hl⟩ := h
  have hinv : AudioInv s := ⟨hb, hl⟩
  have hchar := ttsSuccess_char s hinv
  have hinv2 := ttsSuccess_inv s hinv
  have hclear : (clearTextResults s).live = ∅ ∧ (clearTextResults s).current = none := by
    cases hc : s.current with
    | none =>
      rw [hc] at hl
      simp [clearTextResults, hc, hl]
    | some u =>
      rw [hc] at hl
      simp [clearTextResults, revokeObjectURL, hc, hl, Finset.erase_singleton]
  refine ⟨hinv2, ?_, ?_, ?_, hclear.1, ?_, ?_⟩
  · refine ⟨?_, ?_⟩
    · intro u hu; rw [hclear.1] at hu; simp at hu
    · rw [hclear.1, hclear.2]
  · obtain ⟨h1, _, _⟩ := ttsSuccess_char (ttsSuccess s) hinv2
    rw [h1, Finset.card_singleton]
  · intro u hu
    refine ⟨hchar.1, ?_⟩
    rw [hchar.1]
    have : u < s.next := by
      apply hb
      rw [hu] at hl
      rw [hl]
      exact Finset.mem_singleton_self u
    simp
    omega
  · cases hc : s.current with
    | none =>
      rw [hc] at hl
      simp [beforeUnload, hc, hl]
    | some u =>
      rw [hc] at hl
      simp [beforeUnload, revokeObjectURL, hc, hl, Finset.erase_singleton]
  · exact ⟨by intro u hu; simp [initialAudioState] at hu, rfl⟩

theorem audio_url_invariant_witness :
    (ttsSuccess (ttsSuccess initialAudioState)).live.card = 1 :=
  (audio_url_invariant initialAudioState
    ⟨by intro u hu; simp [initialAudioState] at hu, by simp [initialAudioState]⟩).2.2.1


/-- Claim C3, counterexample: `healthCheck` on a 400 response whose JSON
body carries the error field `bad input` fails with the generic message
`Health check failed: 400`, not with `bad input` — refuting the claim
for the `healthCheck` operation. -/
theorem healthCheck_ignores_error_body :
    (healthCheck "http://x"
        { status := 400, body := .ok (.obj [("error", .str "bad input")]) }).2 =
      .error "Health check failed: 400" ∧
    ("Health check failed: 400" : String) ≠ "bad input" :=
  ⟨rfl, by decide⟩

/-- Claim C3 as amended: for `queryText`, `extractOCR`, `imageQuery` and
`textToSpeech`, a non-2xx response whose JSON body carries a non-empty
error field fails with exactly that message, and one whose body lacks
the field fails with the generic status-based message; `healthCheck`
does not read the body and always fails with its generic status
message. -/
theorem error_message_surfacing (base q t : String) (f : ImageFile) (topK : Int)
    (status : Nat) (j j2 : Json) (m : String)
    (hok : respOk { status := status, body := .ok j } = false)
    (he : Json.lookup j "error" = some (.str m)) (hm : m ≠ "")
    (he2 : Json.lookup j2 "error" = none)
    (hq : jsTrim q ≠ "") (ht : jsTrim t ≠ "") :
    (queryText base q topK { status := status, body := .ok j }).2 = .error m ∧
    (extractOCR base (some f) { status := status, body := .ok j }).2 = .error m ∧
    (imageQuery base (some f) q topK { status := status, body := .ok j }).2 = .error m ∧
    (textToSpeech base t { status := status, body := .ok j }).2 = .error m ∧
    (healthCheck base { status := status, body := .ok j }).2 =
      .error ("Health check failed: " ++ toString status) ∧
    (queryText base q topK { status := status, body := .ok j2 }).2 =
      .error ("Request failed: " ++ toString status) ∧
    (extractOCR base (some f) { status := status, body := .ok j2 }).2 =
      .error ("OCR failed: " ++ toString status) ∧
    (imageQuery base (some f) q topK { status := status, body := .ok j2 }).2 =
      .error ("Image query failed: " ++ toString status) ∧
    (textToSpeech base t { status := status, body := .ok j2 }).2 =
      .error ("TTS failed: " ++ toString status) := by
  have hok2 : respOk { status := status, body := .ok j2 } = false := hok
  refine ⟨?_, ?_, ?_, ?_, ?_, ?_, ?_, ?_, ?_⟩ <;>
    simp [queryText, extractOCR, imageQuery, textToSpeech, healthCheck,
      failBody, errorFromData, jsTruthy, jsToMessage, hok, hok2, he, hm, he2, hq, ht]

theorem error_message_surfacing_witness :
    (queryText "b" " q " 5
        { status := 400, body := .ok (.obj [("error", .str "bad input")]) }).2 =
      .error "bad input" ∧
    (extractOCR "b" (some { name := "a.png", size := 10, mimeType := "image/png" })
        { status := 400, body := .ok (.obj []) }).2 =
      .error ("OCR failed: " ++ toString 400) := by
  have h := error_message_surfacing "b" " q " " t "
    { name := "a.png", size := 10, mimeType := "image/png" } 5 400
    (.obj [("error", .str "bad input")]) (.obj []) "bad input"
    (by decide) rfl (by decide) rfl (by decide) (by decide)
  exact ⟨h.1, h.2.2.2.2.2.2.1⟩
